import Mathlib

/-!
Verification of `src/python/geoclaw/xarray_backends.py` (kbarnhart/geoclaw).

Shallow embedding conventions:

* A 2-D numpy array of floats is a function `Fin m → Fin n → ℚ` (`Grid m n`);
  the float values of the program are modelled as rationals.  A boolean numpy
  mask is `Fin m → Fin n → Bool`.
* `np.nan` (the module constant `nodata`) is modelled as an abstract fill
  value `nodata : ℚ` passed as a parameter: the code only ever assigns it into
  masked positions, it never does arithmetic whose result is observed, except
  in `eta_max` where the masked positions are overwritten with the fill value
  again immediately afterwards, so no IEEE NaN semantics are needed.
* Python exceptions are an `Except PyError` monad: `ValueError msg` and
  `IndexError` mirror the exceptions the code can raise.
* The file-system reads done by `fgout_tools` / `fgmax_tools` (external to
  this repository) are abstracted: `open_dataset` receives the values those
  readers would return (`point_style`, the frame, the fgmax record) and an
  `Except` wrapper records that reading itself may fail.
* The filename is a `List Char` (Python treats `str` as a char sequence).
-/

namespace XarrayBackends

/-- A 2-D array of rational "float" values, `m` rows by `n` columns. -/
abbrev Grid (m n : Nat) := Fin m → Fin n → ℚ

/-- A 2-D boolean mask of the same layout as `Grid`. -/
abbrev BoolMask (m n : Nat) := Fin m → Fin n → Bool

/-- Python exceptions raised by the code under scrutiny. -/
inductive PyError where
  | valueError (msg : String)
  | indexError
deriving DecidableEq

/-- Python `str.split(sep)`: splits at every occurrence of `sep`, keeping
empty segments; the result is always non-empty. -/
def pySplit (sep : Char) : List Char → List (List Char)
  | [] => [[]]
  | c :: rest =>
    let r := pySplit sep rest
    if c = sep then [] :: r
    else
      match r with
      | [] => [[c]]
      | seg :: segs => (c :: seg) :: segs

/-- Python slice `s[-n:]`: the last `n` characters (the whole string when it
is shorter than `n`). -/
def lastN (n : Nat) (s : List Char) : List Char := s.drop (s.length - n)

/-- Python `int(s)` restricted to the unsigned decimal strings that occur
here: succeeds on a non-empty all-digit string, otherwise raises
`ValueError`. -/
def pyInt (s : List Char) : Except PyError Nat :=
  if !s.isEmpty && s.all Char.isDigit then
    .ok (s.foldl (fun a c => 10 * a + (c.toNat - 48)) 0)
  else .error (.valueError ("invalid literal for int"))

/-- Python list indexing `l[i]` (for `i ≥ 0`): raises `IndexError` when out
of range. -/
def pyIndex {α : Type} (l : List α) (i : Nat) : Except PyError α :=
  match l[i]? with
  | some a => .ok a
  | none => .error .indexError

/-- numpy fancy assignment `data[mask] = nodata` (as the value it leaves in
the buffer): masked positions replaced by `nodata`, others untouched. -/
def maskFill {m n : Nat} (data : Grid m n) (mask : BoolMask m n) (nodata : ℚ) : Grid m n :=
  fun i j => if mask i j then nodata else data i j

/-- numpy `data.T`. -/
def transposeG {m n : Nat} (data : Grid m n) : Grid n m := fun i j => data j i

/-- numpy `np.flipud(data)`: reverses the order of the rows. -/
def flipud {m n : Nat} (data : Grid m n) : Grid m n := fun i j => data i.rev j

/-- The composite performed by `_prepare_var` and by the per-channel loop of
`FGOutBackend.open_dataset`: `data[mask] = nodata`, then `data.T`, then
`np.flipud(data)`. -/
def orientAndMask {m n : Nat} (data : Grid m n) (mask : BoolMask m n) (nodata : ℚ) :
    Grid n m :=
  flipud (transposeG (maskFill data mask nodata))

/-- Module constant `_qelements_dclaw`. -/
def _qelements_dclaw : List String :=
  ["h", "hu", "hv", "hm", "pb", "hchi", "delta_a", "eta"]

/-- Module constant `_qelements_geoclaw`. -/
def _qelements_geoclaw : List String := ["h", "hu", "hv", "eta"]

/-- Module dict `_qunits` as a total function on the variable names that
occur (a lookup on any other key would be a `KeyError`, which cannot happen
because names are drawn from the two `_qelements` lists). -/
def _qunits (v : String) : String :=
  if v = "h" then "meters"
  else if v = "hu" then "meters squared per second"
  else if v = "hv" then "meters squared per second"
  else if v = "hm" then "meters"
  else if v = "pb" then "newton per meter squared"
  else if v = "hchi" then "meters"
  else if v = "delta_a" then "meters"
  else if v = "eta" then "meters"
  else ""

/-- The dry tolerance `0.001` from `mask = fgout.q[0, :, :] < 0.001`,
written as the rational `1/1000` in explicitly reduced form (so that kernel
evaluation of comparisons does not need gcd normalisation). -/
def dryTolerance : ℚ := Rat.mk' 1 1000 (by decide) (by simp [Nat.coprime_one_left])

/-- Sanity: the reduced-form constant is the rational `1/1000`. -/
lemma dryTolerance_eq : dryTolerance = 1 / 1000 := by
  show (⟨1, 1000, _, _⟩ : ℚ) = 1 / 1000
  rw [Rat.mk'_eq_divInt]
  norm_num [Rat.divInt_eq_div]

/-- The mapping triple returned by `_prepare_var`: dims, oriented data and
the attribute dict `{units, _FillValue, long_name}`. -/
structure VarMapping (m n : Nat) where
  dims : List String
  data : Grid m n
  units : String
  fillValue : ℚ
  long_name : String

/-- `_prepare_var(data, mask, dims, units, nodata, long_name)`. -/
def prepareVar {m n : Nat} (data : Grid m n) (mask : BoolMask m n) (dims : List String)
    (units : String) (nodata : ℚ) (long_name : String) : VarMapping n m :=
  ⟨dims, orientAndMask data mask nodata, units, nodata, long_name⟩

/-- The fgout frame object as returned by `fgout_tools`'s `read_frame`:
time `t`, coordinate vectors `x` (length `nx`) and `y` (length `ny`), both
ascending as the solver writes them, and the raw solution array
`q` of shape `(nvars, nx, ny)` as a list of `nvars` channel grids.  The
reader always produces coordinate vectors matching the grid shape, so the
length agreement is an invariant of the type (`hx`, `hy`); consequently
`ni = len(y) = ny` and `nj = len(x) = nx`, and the per-channel
`Q.reshape((1, ni, nj))` of line 203 — applied to the oriented `(ny, nx)`
array — always succeeds and only adds the singleton time axis (left
implicit in `FGVar`). -/
structure FGoutFrame (nx ny : Nat) where
  t : ℚ
  x : List ℚ
  y : List ℚ
  q : List (Grid nx ny)
  hx : x.length = nx
  hy : y.length = ny

/-- One fgout data variable: dimension names, oriented data (the singleton
time axis added by `Q.reshape((1, ni, nj))` is left implicit), and the
attribute dict `{units, _FillValue}`. -/
structure FGVar (m n : Nat) where
  dims : List String
  data : Grid m n
  units : String
  fillValue : ℚ

/-- The dataset assembled by `FGOutBackend.open_dataset`. -/
structure FGoutDataset (m n : Nat) where
  data_vars : List (String × FGVar m n)
  x : List ℚ
  y : List ℚ
  time : List ℚ
  reference_time : String
  description : String

/-- Lines 157-165 of `FGOutBackend.open_dataset`: extract
`type_code = filename.split(".")[-1][0]`,
`fgno = int(filename.split(".")[0][-4:])`,
`frameno = int(filename.split(".")[-1][-4:])` and select the output format,
raising `ValueError` on an unrecognised type code. -/
def parseFGoutFilename (filename : List Char) : Except PyError (Char × Nat × Nat × String) :=
  let segs := pySplit '.' filename
  let lastSeg := segs.getLastD []
  match lastSeg with
  | [] => .error .indexError
  | type_code :: _ =>
    match pyInt (lastN 4 (segs.headD [])) with
    | .error e => .error e
    | .ok fgno =>
      match pyInt (lastN 4 lastSeg) with
      | .error e => .error e
      | .ok frameno =>
        if type_code = 'q' then .ok (type_code, fgno, frameno, "ascii")
        else if type_code = 'b' then .ok (type_code, fgno, frameno, "binary32")
        else .error (.valueError ("Invalid FGout output format. Must be ascii or binary."))

/-- `mask = fgout.q[0, :, :] < 0.001` (computed once, before the channel
loop, from the depth channel as read from disk). -/
def maskOf {nx ny : Nat} (q0 : Grid nx ny) : BoolMask nx ny :=
  fun r c => decide (q0 r c < dryTolerance)

/-- Schema dispatch on the observed channel count (`nvars == 8` selects the
dclaw names, anything else the geoclaw names). -/
def qelemsOf (nvars : Nat) : List String :=
  if nvars == 8 then _qelements_dclaw else _qelements_geoclaw

/-- The value the per-channel loop body computes for channel `i`:
`Q[mask] = nodata` only when `i < 7`, then `Q.T` and `np.flipud(Q)`. -/
def fgoutChannel {nx ny : Nat} (Q : Grid nx ny) (i : Nat) (mask : BoolMask nx ny)
    (nodata : ℚ) : Grid ny nx :=
  flipud (transposeG (if i < 7 then maskFill Q mask nodata else Q))

/-- The channel loop of `FGOutBackend.open_dataset` (lines 194-219), with the
in-place mutation of `fgout.q` modelled faithfully: iteration `i` reads
channel `i` from the current buffer `state`, writes the masked channel back
into `state`, and appends the oriented variable unless its name is in
`drop_variables`.  `fuel` is the number of remaining iterations of
`range(nvars)`. -/
def fgoutLoop {nx ny : Nat} (mask : BoolMask nx ny) (nodata : ℚ) (qelems : List String)
    (drop : List String) : Nat → List (Grid nx ny) → Nat →
    Except PyError (List (String × FGVar ny nx))
  | 0, _, _ => .ok []
  | fuel + 1, state, i =>
    match pyIndex state i with
    | .error e => .error e
    | .ok Q =>
      let Q1 := if i < 7 then maskFill Q mask nodata else Q
      let Qout := flipud (transposeG Q1)
      match pyIndex qelems i with
      | .error e => .error e
      | .ok varname =>
        match fgoutLoop mask nodata qelems drop fuel (state.set i Q1) (i + 1) with
        | .error e => .error e
        | .ok rest =>
          if varname ∈ drop then .ok rest
          else .ok ((varname, ⟨["time", "y", "x"], Qout, _qunits varname, nodata⟩) :: rest)

/-- Mutation-free rendering of the same channel loop: every channel is taken
from the original `q` array and masked with the single mask computed from
the original depth channel. -/
def fgoutChannelsPure {nx ny : Nat} (mask : BoolMask nx ny) (nodata : ℚ)
    (qelems : List String) (drop : List String) :
    List (Grid nx ny) → Nat → Except PyError (List (String × FGVar ny nx))
  | [], _ => .ok []
  | Q :: rest, i =>
    match pyIndex qelems i with
    | .error e => .error e
    | .ok varname =>
      match fgoutChannelsPure mask nodata qelems drop rest (i + 1) with
      | .error e => .error e
      | .ok tail =>
        if varname ∈ drop then .ok tail
        else .ok ((varname, ⟨["time", "y", "x"], fgoutChannel Q i mask nodata,
            _qunits varname, nodata⟩) :: tail)

/-- `FGOutBackend.open_dataset`.  `point_style` is the attribute of the
`FGoutGrid` metadata object; `readFrame` stands for
`fgout_grid.read_frame(frameno)` (and the metadata read that precedes it),
which happens only after the point-style check.  The per-channel
`Q.reshape((1, ni, nj))` of line 203 needs no error case here: by the
`FGoutFrame` invariant `ni = len(y) = ny` and `nj = len(x) = nx`, so the
reshape of the oriented `(ny, nx)` array always succeeds, and its only
effect — the leading singleton time axis — is left implicit in `FGVar`. -/
def fgoutOpenDataset {nx ny : Nat} (filename : List Char) (point_style : ℤ)
    (readFrame : Except PyError (FGoutFrame nx ny)) (nodata : ℚ)
    (drop_variables : List String) : Except PyError (FGoutDataset ny nx) :=
  match parseFGoutFilename filename with
  | .error e => .error e
  | .ok _pr =>
    if point_style ≠ 2 then
      .error (.valueError ("FGOutBackend only works with fg.point_style=2"))
    else
      match readFrame with
      | .error e => .error e
      | .ok fgout =>
        let x := fgout.x
        let y := fgout.y.reverse
        match pyIndex fgout.q 0 with
        | .error e => .error e
        | .ok q0 =>
          let mask := maskOf q0
          let nvars := fgout.q.length
          let qelems := qelemsOf nvars
          match fgoutLoop mask nodata qelems drop_variables nvars fgout.q 0 with
          | .error e => .error e
          | .ok data_vars =>
            .ok ⟨data_vars, x, y, [fgout.t], "model start", "Clawpack model output"⟩

/-- Variant of `fgoutOpenDataset` whose channel loop is the explicitly
mutation-free `fgoutChannelsPure`; used to state that the in-place masking
of earlier channels never leaks into later ones. -/
def fgoutOpenDatasetPure {nx ny : Nat} (filename : List Char) (point_style : ℤ)
    (readFrame : Except PyError (FGoutFrame nx ny)) (nodata : ℚ)
    (drop_variables : List String) : Except PyError (FGoutDataset ny nx) :=
  match parseFGoutFilename filename with
  | .error e => .error e
  | .ok _pr =>
    if point_style ≠ 2 then
      .error (.valueError ("FGOutBackend only works with fg.point_style=2"))
    else
      match readFrame with
      | .error e => .error e
      | .ok fgout =>
        let x := fgout.x
        let y := fgout.y.reverse
        match pyIndex fgout.q 0 with
        | .error e => .error e
        | .ok q0 =>
          let mask := maskOf q0
          let nvars := fgout.q.length
          let qelems := qelemsOf nvars
          match fgoutChannelsPure mask nodata qelems drop_variables fgout.q 0 with
          | .error e => .error e
          | .ok data_vars =>
            .ok ⟨data_vars, x, y, [fgout.t], "model start", "Clawpack model output"⟩

/-- A masked numpy array (`.data` buffer plus `.mask`), as held by the
`FGmaxGrid` object for each accumulated quantity. -/
structure MaskedGrid (m n : Nat) where
  data : Grid m n
  mask : BoolMask m n

/-- The optional velocity block: present when the run tracked
`num_fgmax_val >= 2` (the `hasattr(fg, "s")` / `hasattr(fg.s, "data")`
probe). -/
structure SpeedBlock (m n : Nat) where
  s : MaskedGrid m n
  s_time : MaskedGrid m n

/-- The optional momentum block: present when the run tracked
`num_fgmax_val == 5` (the `hasattr(fg, "hs")` probe); the code then also
reads `hss`, `hmin` and their times. -/
structure MomentumBlock (m n : Nat) where
  hs : MaskedGrid m n
  hs_time : MaskedGrid m n
  hss : MaskedGrid m n
  hss_time : MaskedGrid m n
  hmin : MaskedGrid m n
  hmin_time : MaskedGrid m n

/-- The `FGmaxGrid` object after `read_output()`: coordinate vectors (both
ascending), the always-present masked fields, the static topography `B`,
and the two conditional blocks.  As with `FGoutFrame`, the reader always
produces coordinate vectors matching the grid shape, recorded as the type
invariants `hx`, `hy`. -/
structure FGMaxGrid (m n : Nat) where
  x : List ℚ
  y : List ℚ
  arrival_time : MaskedGrid m n
  h : MaskedGrid m n
  h_time : MaskedGrid m n
  B : Grid m n
  speed : Option (SpeedBlock m n)
  momentum : Option (MomentumBlock m n)
  hx : x.length = m
  hy : y.length = n

/-- The dataset assembled by `FGMaxBackend.open_dataset`. -/
structure FGMaxDataset (m n : Nat) where
  data_vars : List (String × VarMapping m n)
  x : List ℚ
  y : List ℚ
  description : String

/-- The `data_vars` dictionary built by `FGMaxBackend.open_dataset`
(lines 286-429), in insertion order.  The call
`_prepare_var(fg.h.data, fg.h.mask, ...)` for `h_max` mutates `fg.h.data`
in place (`data[mask] = nodata`), so the later `eta_max` entry is computed
from the mutated buffer `hMutated` plus `fg.B.data`; `_prepare_var` then
applies `fg.h.mask` to that sum again. -/
def fgmaxVars {m n : Nat} (fg : FGMaxGrid m n) (nodata : ℚ) :
    List (String × VarMapping n m) :=
  let hMutated := maskFill fg.h.data fg.h.mask nodata
  [("arrival_time", prepareVar fg.arrival_time.data fg.arrival_time.mask ["y", "x"]
      ("seconds") nodata ("Wave arrival time")),
   ("h_max", prepareVar fg.h.data fg.h.mask ["y", "x"]
      ("meters") nodata ("Maximum water depth")),
   ("eta_max", prepareVar (fun i j => hMutated i j + fg.B i j) fg.h.mask ["y", "x"]
      ("meters") nodata ("Maximum water surface elevation")),
   ("h_max_time", prepareVar fg.h_time.data fg.h_time.mask ["y", "x"]
      ("seconds") nodata ("Time of maximum water depth"))]
  ++ (match fg.speed with
      | some sb =>
        [("s_max", prepareVar sb.s.data sb.s.mask ["y", "x"]
            ("meters per second") nodata ("Maximum velocity")),
         ("s_max_time", prepareVar sb.s_time.data sb.s_time.mask ["y", "x"]
            ("seconds") nodata ("Time of maximum velocity"))]
      | none => [])
  ++ (match fg.momentum with
      | some mb =>
        [("hs_max", prepareVar mb.hs.data mb.hs.mask ["y", "x"]
            ("meters squared per second") nodata ("Maximum momentum")),
         ("hs_max_time", prepareVar mb.hs_time.data mb.hs_time.mask ["y", "x"]
            ("seconds") nodata ("Time of maximum momentum")),
         ("hss_max", prepareVar mb.hss.data mb.hss.mask ["y", "x"]
            ("meters cubed per second squared") nodata ("Maximum momentum flux")),
         ("hss_max_time", prepareVar mb.hss_time.data mb.hss_time.mask ["y", "x"]
            ("seconds") nodata ("Time of maximum momentum flux")),
         ("h_min", prepareVar mb.hmin.data mb.hmin.mask ["y", "x"]
            ("meters") nodata ("Minimum depth")),
         ("h_min_time", prepareVar mb.hmin_time.data mb.hmin_time.mask ["y", "x"]
            ("seconds") nodata ("Time of minimum depth"))]
      | none => [])

/-- Lines 431-434 of `FGMaxBackend.open_dataset`:
`for var in drop_variables: if var in data_vars.keys(): del data_vars[var]`.
Deleting a key removes its (unique) entry; an absent key is skipped. -/
def applyDrops {m n : Nat} (vars : List (String × VarMapping m n)) :
    List String → List (String × VarMapping m n)
  | [] => vars
  | d :: rest => applyDrops (vars.filter (fun p => p.1 ≠ d)) rest

/-- `FGMaxBackend.open_dataset`.  `point_style` is the attribute the
`FGmaxGrid` carries after `read_fgmax_grids_data`; `readOutput` stands for
`fg.read_output()`, which happens only after the point-style check. -/
def fgmaxOpenDataset {m n : Nat} (filename : List Char) (point_style : ℤ)
    (readOutput : Except PyError (FGMaxGrid m n)) (nodata : ℚ)
    (drop_variables : List String) : Except PyError (FGMaxDataset n m) :=
  match pyInt (lastN 4 ((pySplit '.' filename).headD [])) with
  | .error e => .error e
  | .ok _fgno =>
    if point_style ≠ 2 then
      .error (.valueError ("FGMaxBackend only works with fg.point_style=2"))
    else
      match readOutput with
      | .error e => .error e
      | .ok fg =>
        let x := fg.x
        let y := fg.y.reverse
        let data_vars := applyDrops (fgmaxVars fg nodata) drop_variables
        .ok ⟨data_vars, x, y, "D-Claw model output"⟩

/-! Helper definitions and lemmas about 4-digit fixed-width ids. -/

/-- The character for a single decimal digit. -/
def digitChar (d : Nat) : Char := Char.ofNat (48 + d)

/-- The 4-digit zero-padded decimal rendering of `x < 10000`, as the solver
writes grid and frame numbers into filenames. -/
def pad4 (x : Nat) : List Char :=
  [digitChar (x / 1000 % 10), digitChar (x / 100 % 10), digitChar (x / 10 % 10),
   digitChar (x % 10)]

lemma digitChar_isDigit {d : Nat} (h : d < 10) : (digitChar d).isDigit = true := by
  unfold digitChar
  interval_cases d <;> decide

lemma digitChar_toNat {d : Nat} (h : d < 10) : (digitChar d).toNat = 48 + d := by
  unfold digitChar
  interval_cases d <;> decide

lemma digitChar_ne_dot {d : Nat} (h : d < 10) : digitChar d ≠ '.' := by
  unfold digitChar
  interval_cases d <;> decide

lemma digitChar_ne_q {d : Nat} (h : d < 10) : digitChar d ≠ 'q' := by
  unfold digitChar
  interval_cases d <;> decide

lemma digitChar_ne_b {d : Nat} (h : d < 10) : digitChar d ≠ 'b' := by
  unfold digitChar
  interval_cases d <;> decide

lemma pad4_length (x : Nat) : (pad4 x).length = 4 := rfl

lemma pad4_not_dot (x : Nat) : '.' ∉ pad4 x := by
  intro hmem
  have h1 : x / 1000 % 10 < 10 := Nat.mod_lt _ (by omega)
  have h2 : x / 100 % 10 < 10 := Nat.mod_lt _ (by omega)
  have h3 : x / 10 % 10 < 10 := Nat.mod_lt _ (by omega)
  have h4 : x % 10 < 10 := Nat.mod_lt _ (by omega)
  simp only [pad4, List.mem_cons, List.not_mem_nil, or_false] at hmem
  rcases hmem with h | h | h | h
  · exact digitChar_ne_dot h1 h.symm
  · exact digitChar_ne_dot h2 h.symm
  · exact digitChar_ne_dot h3 h.symm
  · exact digitChar_ne_dot h4 h.symm

lemma pyInt_pad4 {x : Nat} (h : x < 10000) : pyInt (pad4 x) = .ok x := by
  have h1 : x / 1000 % 10 < 10 := Nat.mod_lt _ (by omega)
  have h2 : x / 100 % 10 < 10 := Nat.mod_lt _ (by omega)
  have h3 : x / 10 % 10 < 10 := Nat.mod_lt _ (by omega)
  have h4 : x % 10 < 10 := Nat.mod_lt _ (by omega)
  have hall : (pad4 x).all Char.isDigit = true := by
    simp only [pad4, List.all_cons, List.all_nil, Bool.and_true]
    rw [digitChar_isDigit h1, digitChar_isDigit h2, digitChar_isDigit h3, digitChar_isDigit h4]
    rfl
  unfold pyInt
  rw [if_pos]
  · simp only [pad4, List.foldl_cons, List.foldl_nil]
    rw [digitChar_toNat h1, digitChar_toNat h2, digitChar_toNat h3, digitChar_toNat h4]
    congr 1
    omega
  · rw [hall]
    rfl

/-! Lemmas about `pySplit`. -/

lemma pySplit_of_not_mem {sep : Char} : ∀ {s : List Char}, sep ∉ s → pySplit sep s = [s] := by
  intro s
  induction s with
  | nil => intro _; rfl
  | cons c rest ih =>
    intro h
    have hc : ¬ c = sep := fun hcs => h (hcs ▸ List.mem_cons_self c rest)
    have hrest : sep ∉ rest := fun hm => h (List.mem_cons_of_mem c hm)
    simp only [pySplit, if_neg hc, ih hrest]

lemma pySplit_append {sep : Char} : ∀ {a : List Char} (b : List Char), sep ∉ a →
    pySplit sep (a ++ sep :: b) = a :: pySplit sep b := by
  intro a
  induction a with
  | nil =>
    intro b _
    simp [pySplit]
  | cons c a' ih =>
    intro b h
    have hc : ¬ c = sep := fun hcs => h (hcs ▸ List.mem_cons_self c a')
    have ha' : sep ∉ a' := fun hm => h (List.mem_cons_of_mem c hm)
    simp only [List.cons_append, pySplit, if_neg hc, List.append_eq, ih b ha']

lemma fgout_base_not_dot (g : Nat) : '.' ∉ ("fgout".data) ++ pad4 g := by
  intro hmem
  rcases List.mem_append.1 hmem with h | h
  · exact absurd h (by decide)
  · exact pad4_not_dot g h

lemma lastN_fgout_base (g : Nat) : lastN 4 (("fgout".data) ++ pad4 g) = pad4 g := by
  unfold lastN
  have hlen : ((("fgout".data) ++ pad4 g).length) = 9 := by
    rw [List.length_append, pad4_length]
    rfl
  rw [hlen]
  exact List.drop_left ("fgout".data) (pad4 g)

lemma lastN_ext (c : Char) (f : Nat) : lastN 4 (c :: pad4 f) = pad4 f := by
  unfold lastN
  rfl

/-- Evaluation of the filename parser on a well-formed
`fgout<GGGG>.<c><FFFF>` name whose type-code character is not itself a
dot. -/
lemma parseFGoutFilename_concat {g f : Nat} {c : Char} (hg : g < 10000) (hf : f < 10000)
    (hc : c ≠ '.') :
    parseFGoutFilename ((("fgout".data) ++ pad4 g) ++ ('.' :: c :: pad4 f)) =
      if c = 'q' then .ok (c, g, f, "ascii")
      else if c = 'b' then .ok (c, g, f, "binary32")
      else .error (.valueError ("Invalid FGout output format. Must be ascii or binary.")) := by
  have hext : '.' ∉ c :: pad4 f := by
    intro hmem
    rcases List.mem_cons.1 hmem with h | h
    · exact hc h.symm
    · exact pad4_not_dot f h
  have hsplit : pySplit '.' ((("fgout".data) ++ pad4 g) ++ ('.' :: c :: pad4 f)) =
      [("fgout".data) ++ pad4 g, c :: pad4 f] := by
    rw [pySplit_append _ (fgout_base_not_dot g), pySplit_of_not_mem hext]
  have h1 : pyInt (lastN 4 (("fgout".data) ++ pad4 g)) = .ok g := by
    rw [lastN_fgout_base]
    exact pyInt_pad4 hg
  have h2 : pyInt (lastN 4 (c :: pad4 f)) = .ok f := by
    rw [lastN_ext]
    exact pyInt_pad4 hf
  unfold parseFGoutFilename
  rw [hsplit]
  show (match pyInt (lastN 4 (("fgout".data) ++ pad4 g)) with
    | .error e => (.error e : Except PyError (Char × Nat × Nat × String))
    | .ok fgno =>
      match pyInt (lastN 4 (c :: pad4 f)) with
      | .error e => .error e
      | .ok frameno =>
        if c = 'q' then .ok (c, fgno, frameno, "ascii")
        else if c = 'b' then .ok (c, fgno, frameno, "binary32")
        else .error (.valueError ("Invalid FGout output format. Must be ascii or binary."))) = _
  rw [h1, h2]

/-- Evaluation of the filename parser when the type-code position holds a
second dot: the last segment is then the frame-number block, whose first
character is a digit, so the format check fails the same way. -/
lemma parseFGoutFilename_concat_dot {g f : Nat} (hg : g < 10000) (hf : f < 10000) :
    parseFGoutFilename ((("fgout".data) ++ pad4 g) ++ ('.' :: '.' :: pad4 f)) =
      .error (.valueError ("Invalid FGout output format. Must be ascii or binary.")) := by
  have hsplit : pySplit '.' ((("fgout".data) ++ pad4 g) ++ ('.' :: '.' :: pad4 f)) =
      [("fgout".data) ++ pad4 g, [], pad4 f] := by
    rw [pySplit_append _ (fgout_base_not_dot g)]
    rw [show ('.' :: pad4 f : List Char) = [] ++ '.' :: pad4 f from rfl]
    rw [pySplit_append _ (by intro h; exact absurd h (List.not_mem_nil '.'))]
    rw [pySplit_of_not_mem (pad4_not_dot f)]
  have hdig : f / 1000 % 10 < 10 := Nat.mod_lt _ (by omega)
  have h1 : pyInt (lastN 4 (("fgout".data) ++ pad4 g)) = .ok g := by
    rw [lastN_fgout_base]
    exact pyInt_pad4 hg
  have h2 : pyInt (lastN 4 (pad4 f)) = .ok f := by
    rw [show lastN 4 (pad4 f) = pad4 f from by unfold lastN; rw [pad4_length]; rfl]
    exact pyInt_pad4 hf
  unfold parseFGoutFilename
  rw [hsplit]
  show (match pyInt (lastN 4 (("fgout".data) ++ pad4 g)) with
    | .error e => (.error e : Except PyError (Char × Nat × Nat × String))
    | .ok fgno =>
      match pyInt (lastN 4 (pad4 f)) with
      | .error e => .error e
      | .ok frameno =>
        if digitChar (f / 1000 % 10) = 'q' then .ok (digitChar (f / 1000 % 10), fgno, frameno, "ascii")
        else if digitChar (f / 1000 % 10) = 'b' then .ok (digitChar (f / 1000 % 10), fgno, frameno, "binary32")
        else .error (.valueError ("Invalid FGout output format. Must be ascii or binary."))) = _
  rw [h1, h2]
  show (if digitChar (f / 1000 % 10) = 'q'
      then (.ok (digitChar (f / 1000 % 10), g, f, "ascii") : Except PyError (Char × Nat × Nat × String))
      else if digitChar (f / 1000 % 10) = 'b'
      then .ok (digitChar (f / 1000 % 10), g, f, "binary32")
      else .error (.valueError ("Invalid FGout output format. Must be ascii or binary."))) = _
  rw [if_neg (digitChar_ne_q hdig), if_neg (digitChar_ne_b hdig)]

/-! Lemmas relating the stateful channel loop to its mutation-free
rendering. -/

lemma drop_set_of_lt {α : Type} (l : List α) (i j : Nat) (a : α) (h : i < j) :
    (l.set i a).drop j = l.drop j := by
  apply List.ext_getElem?
  intro k
  rw [List.getElem?_drop, List.getElem?_drop, List.getElem?_set_ne (by omega)]

lemma fgoutLoop_eq_pure {nx ny : Nat} (mask : BoolMask nx ny) (nodata : ℚ)
    (qelems drop : List String) :
    ∀ (fuel : Nat) (state : List (Grid nx ny)) (i : Nat), fuel + i = state.length →
      fgoutLoop mask nodata qelems drop fuel state i =
        fgoutChannelsPure mask nodata qelems drop (state.drop i) i := by
  intro fuel
  induction fuel with
  | zero =>
    intro state i h
    have hdrop : state.drop i = [] := List.drop_eq_nil_of_le (by omega)
    rw [hdrop]
    rfl
  | succ fuel ih =>
    intro state i h
    have hi : i < state.length := by omega
    have hdrop : state.drop i = state[i] :: state.drop (i + 1) :=
      List.drop_eq_getElem_cons hi
    have hQ : pyIndex state i = .ok state[i] := by
      unfold pyIndex
      rw [List.getElem?_eq_getElem hi]
    rw [hdrop]
    unfold fgoutLoop fgoutChannelsPure
    rw [hQ]
    dsimp only
    rw [ih (state.set i (if i < 7 then maskFill state[i] mask nodata else state[i])) (i + 1)
      (by rw [List.length_set]; omega)]
    rw [drop_set_of_lt _ _ _ _ (by omega)]
    rfl

/-- The list of variables the loop produces when nothing is dropped. -/
def fgoutVarsOf {nx ny : Nat} (mask : BoolMask nx ny) (nodata : ℚ) (qelems : List String) :
    List (Grid nx ny) → Nat → List (String × FGVar ny nx)
  | [], _ => []
  | Q :: rest, i =>
    (qelems.getD i (""), ⟨["time", "y", "x"], fgoutChannel Q i mask nodata,
      _qunits (qelems.getD i ("")), nodata⟩) :: fgoutVarsOf mask nodata qelems rest (i + 1)

lemma channelsPure_ok {nx ny : Nat} (mask : BoolMask nx ny) (nodata : ℚ)
    (qelems : List String) :
    ∀ (qs : List (Grid nx ny)) (i : Nat), i + qs.length ≤ qelems.length →
      fgoutChannelsPure mask nodata qelems [] qs i =
        .ok (fgoutVarsOf mask nodata qelems qs i) := by
  intro qs
  induction qs with
  | nil => intro i _; rfl
  | cons Q rest ih =>
    intro i h
    have hi : i < qelems.length := by
      simp only [List.length_cons] at h
      omega
    have hv : pyIndex qelems i = .ok qelems[i] := by
      unfold pyIndex
      rw [List.getElem?_eq_getElem hi]
    have hd : qelems.getD i ("") = qelems[i] := List.getD_eq_getElem qelems ("") hi
    unfold fgoutChannelsPure fgoutVarsOf
    rw [hv, ih (i + 1) (by simp only [List.length_cons] at h; omega)]
    dsimp only
    rw [if_neg (List.not_mem_nil qelems[i]), hd]

lemma channelsPure_err {nx ny : Nat} (mask : BoolMask nx ny) (nodata : ℚ)
    (qelems drop : List String) :
    ∀ (qs : List (Grid nx ny)) (i : Nat), qs ≠ [] → qelems.length < i + qs.length →
      fgoutChannelsPure mask nodata qelems drop qs i = .error .indexError := by
  intro qs
  induction qs with
  | nil => intro i hne _; exact absurd rfl hne
  | cons Q rest ih =>
    intro i _ hlen
    by_cases hi : i < qelems.length
    · have hrest : rest ≠ [] := by
        intro hr
        rw [hr] at hlen
        simp only [List.length_cons, List.length_nil] at hlen
        omega
      have hv : pyIndex qelems i = .ok qelems[i] := by
        unfold pyIndex
        rw [List.getElem?_eq_getElem hi]
      unfold fgoutChannelsPure
      rw [hv, ih (i + 1) hrest (by simp only [List.length_cons] at hlen ⊢; omega)]
    · have hv : pyIndex qelems i = .error .indexError := by
        unfold pyIndex
        rw [List.getElem?_eq_none (by omega)]
      unfold fgoutChannelsPure
      rw [hv]

lemma fgoutVarsOf_map_fst {nx ny : Nat} (mask : BoolMask nx ny) (nodata : ℚ)
    (qelems : List String) :
    ∀ (qs : List (Grid nx ny)) (i : Nat),
      (fgoutVarsOf mask nodata qelems qs i).map Prod.fst =
        (List.range' i qs.length).map (fun t => qelems.getD t ("")) := by
  intro qs
  induction qs with
  | nil => intro i; rfl
  | cons Q rest ih =>
    intro i
    unfold fgoutVarsOf
    rw [List.map_cons, ih (i + 1), List.length_cons, List.range'_succ i rest.length 1,
      List.map_cons]

lemma fgoutVarsOf_getElem? {nx ny : Nat} (mask : BoolMask nx ny) (nodata : ℚ)
    (qelems : List String) :
    ∀ (qs : List (Grid nx ny)) (i k : Nat),
      (fgoutVarsOf mask nodata qelems qs i)[k]? = (qs[k]?).map (fun Q =>
        (qelems.getD (i + k) (""), ⟨["time", "y", "x"], fgoutChannel Q (i + k) mask nodata,
          _qunits (qelems.getD (i + k) ("")), nodata⟩)) := by
  intro qs
  induction qs with
  | nil => intro i k; simp [fgoutVarsOf]
  | cons Q rest ih =>
    intro i k
    cases k with
    | zero => simp [fgoutVarsOf]
    | succ k' =>
      unfold fgoutVarsOf
      rw [List.getElem?_cons_succ, List.getElem?_cons_succ, ih (i + 1) k']
      have harith : i + 1 + k' = i + (k' + 1) := by omega
      rw [harith]

lemma channelsPure_mem {nx ny : Nat} (mask : BoolMask nx ny) (nodata : ℚ)
    (qelems drop : List String) :
    ∀ (qs : List (Grid nx ny)) (i : Nat) (vars : List (String × FGVar ny nx)),
      fgoutChannelsPure mask nodata qelems drop qs i = .ok vars →
      ∀ p ∈ vars, p.1 ∉ drop := by
  intro qs
  induction qs with
  | nil =>
    intro i vars h p hp
    unfold fgoutChannelsPure at h
    cases h
    exact absurd hp (List.not_mem_nil p)
  | cons Q rest ih =>
    intro i vars h p hp
    unfold fgoutChannelsPure at h
    cases hv : pyIndex qelems i with
    | error e => rw [hv] at h; exact absurd h (by simp)
    | ok varname =>
      rw [hv] at h
      cases ht : fgoutChannelsPure mask nodata qelems drop rest (i + 1) with
      | error e => rw [ht] at h; exact absurd h (by simp)
      | ok tail =>
        rw [ht] at h
        dsimp only at h
        by_cases hm : varname ∈ drop
        · rw [if_pos hm] at h
          cases h
          exact ih (i + 1) vars ht p hp
        · rw [if_neg hm] at h
          cases h
          rcases List.mem_cons.1 hp with hph | hpt
          · rw [hph]
            exact hm
          · exact ih (i + 1) tail ht p hpt

lemma channelsPure_congr_drop {nx ny : Nat} (mask : BoolMask nx ny) (nodata : ℚ)
    (qelems : List String) (d₁ d₂ : List String) (hd : ∀ s, s ∈ d₁ ↔ s ∈ d₂) :
    ∀ (qs : List (Grid nx ny)) (i : Nat),
      fgoutChannelsPure mask nodata qelems d₁ qs i =
        fgoutChannelsPure mask nodata qelems d₂ qs i := by
  intro qs
  induction qs with
  | nil => intro i; rfl
  | cons Q rest ih =>
    intro i
    unfold fgoutChannelsPure
    rw [ih (i + 1)]
    cases pyIndex qelems i with
    | error e => rfl
    | ok varname =>
      cases fgoutChannelsPure mask nodata qelems d₂ rest (i + 1) with
      | error e => rfl
      | ok tail =>
        dsimp only
        rw [if_congr (hd varname) rfl rfl]

/-! Drop-list and dictionary-lookup helpers. -/

lemma applyDrops_eq_filter {m n : Nat} :
    ∀ (drop : List String) (vars : List (String × VarMapping m n)),
      applyDrops vars drop = vars.filter (fun p => decide (p.1 ∉ drop)) := by
  intro drop
  induction drop with
  | nil => intro vars; simp [applyDrops]
  | cons d rest ih =>
    intro vars
    unfold applyDrops
    rw [ih, List.filter_filter]
    congr 1
    funext p
    by_cases h1 : p.1 = d <;> by_cases h2 : p.1 ∈ rest <;> simp [h1, h2]

lemma lookup_eq_none_of_forall {β : Type} :
    ∀ (l : List (String × β)) (name : String), (∀ p ∈ l, p.1 ≠ name) →
      l.lookup name = none := by
  intro l
  induction l with
  | nil => intro name _; rfl
  | cons kv rest ih =>
    intro name h
    obtain ⟨k, v⟩ := kv
    have hk : (name == k) = false := by
      simp only [beq_eq_false_iff_ne, ne_eq]
      intro he
      exact h (k, v) (List.mem_cons_self _ _) he.symm
    simp only [List.lookup, hk]
    exact ih name (fun p hp => h p (List.mem_cons_of_mem _ hp))

/-! Forward characterizations of successful `open_dataset` calls. -/

lemma fgoutOpenDataset_ok {nx ny : Nat} {fname : List Char} {ps : ℤ}
    {rf : Except PyError (FGoutFrame nx ny)} {nodata : ℚ} {drop : List String}
    {ds : FGoutDataset ny nx}
    (h : fgoutOpenDataset fname ps rf nodata drop = .ok ds) :
    ps = 2 ∧ ∃ frame q0, rf = .ok frame ∧ frame.q[0]? = some q0 ∧
      fgoutChannelsPure (maskOf q0) nodata (qelemsOf frame.q.length) drop frame.q 0 =
        .ok ds.data_vars ∧
      ds.x = frame.x ∧ ds.y = frame.y.reverse ∧ ds.time = [frame.t] ∧
      ds.reference_time = ("model start") ∧ ds.description = ("Clawpack model output") := by
  unfold fgoutOpenDataset at h
  cases hp : parseFGoutFilename fname with
  | error e => rw [hp] at h; exact absurd h (by simp)
  | ok pr =>
    rw [hp] at h
    dsimp only at h
    by_cases hps : ps ≠ 2
    · rw [if_pos hps] at h
      exact absurd h (by simp)
    · rw [if_neg hps] at h
      push_neg at hps
      cases hrf : rf with
      | error e => rw [hrf] at h; exact absurd h (by simp)
      | ok frame =>
        rw [hrf] at h
        dsimp only at h
        cases hq : pyIndex frame.q 0 with
        | error e => rw [hq] at h; exact absurd h (by simp)
        | ok q0 =>
          rw [hq] at h
          dsimp only at h
          cases hl : fgoutLoop (maskOf q0) nodata (qelemsOf frame.q.length) drop
              frame.q.length frame.q 0 with
          | error e => rw [hl] at h; exact absurd h (by simp)
          | ok vars =>
            rw [hl] at h
            dsimp only at h
            cases h
            have hq0 : frame.q[0]? = some q0 := by
              unfold pyIndex at hq
              cases hq0' : frame.q[0]? with
              | none => rw [hq0'] at hq; exact absurd hq (by simp)
              | some a =>
                rw [hq0'] at hq
                dsimp only at hq
                cases hq
                rfl
            have hbridge := fgoutLoop_eq_pure (maskOf q0) nodata (qelemsOf frame.q.length)
              drop frame.q.length frame.q 0 (by omega)
            rw [List.drop_zero] at hbridge
            rw [hbridge] at hl
            exact ⟨hps, frame, q0, rfl, hq0, hl, rfl, rfl, rfl, rfl, rfl⟩

lemma fgmaxOpenDataset_ok {m n : Nat} {fname : List Char} {ps : ℤ}
    {ro : Except PyError (FGMaxGrid m n)} {nodata : ℚ} {drop : List String}
    {ds : FGMaxDataset n m}
    (h : fgmaxOpenDataset fname ps ro nodata drop = .ok ds) :
    ps = 2 ∧ ∃ fg, ro = .ok fg ∧
      ds.data_vars = applyDrops (fgmaxVars fg nodata) drop ∧
      ds.x = fg.x ∧ ds.y = fg.y.reverse ∧ ds.description = ("D-Claw model output") := by
  unfold fgmaxOpenDataset at h
  cases hp : pyInt (lastN 4 ((pySplit '.' fname).headD [])) with
  | error e => rw [hp] at h; exact absurd h (by simp)
  | ok fgno =>
    rw [hp] at h
    dsimp only at h
    by_cases hps : ps ≠ 2
    · rw [if_pos hps] at h
      exact absurd h (by simp)
    · rw [if_neg hps] at h
      push_neg at hps
      cases hro : ro with
      | error e => rw [hro] at h; exact absurd h (by simp)
      | ok fg =>
        rw [hro] at h
        dsimp only at h
        cases h
        exact ⟨hps, fg, rfl, rfl, rfl, rfl, rfl⟩

/-- The well-formed fgout filename `fgout0001.q0001` used to fix the
filename argument where a claim is not about filename parsing. -/
def stdFgoutName : List Char := "fgout0001.q0001".data

/-- The standard fgmax filename `fgmax0001.txt`. -/
def stdFgmaxName : List Char := "fgmax0001.txt".data

/-- On the standard filename, with point style 2 and a successfully read
frame, `fgoutOpenDataset` is exactly the mask computation followed by the
channel loop. -/
lemma fgoutOpenDataset_std {nx ny : Nat} (frame : FGoutFrame nx ny) (nodata : ℚ)
    (drop : List String) :
    fgoutOpenDataset stdFgoutName 2 (.ok frame) nodata drop =
      (match pyIndex frame.q 0 with
      | .error e => .error e
      | .ok q0 =>
        match fgoutLoop (maskOf q0) nodata (qelemsOf frame.q.length) drop
            frame.q.length frame.q 0 with
        | .error e => .error e
        | .ok data_vars =>
          .ok ⟨data_vars, frame.x, frame.y.reverse, [frame.t], "model start",
            "Clawpack model output"⟩) := rfl

/-- The analogous unconditional evaluation for `fgmaxOpenDataset`. -/
lemma fgmaxOpenDataset_std {m n : Nat} (fg : FGMaxGrid m n) (nodata : ℚ)
    (drop : List String) :
    fgmaxOpenDataset stdFgmaxName 2 (.ok fg) nodata drop =
      .ok ⟨applyDrops (fgmaxVars fg nodata) drop, fg.x, fg.y.reverse,
        "D-Claw model output"⟩ := rfl

/-! Concrete fixtures and result extractors used by witnesses and
counterexamples. -/

/-- A constant 1x1 grid. -/
def cG (v : ℚ) : Grid 1 1 := fun _ _ => v

/-- A constant 1x3 grid (one x column, three y rows). -/
def cGY (v : ℚ) : Grid 1 3 := fun _ _ => v

/-- A 4-channel (geoclaw) frame whose single cell is dry (depth 0). -/
def cFrame4 : FGoutFrame 1 1 := ⟨0, [0], [0], [cG 0, cG 2, cG 3, cG 4], rfl, rfl⟩

/-- An 8-channel (dclaw) frame whose single cell is dry (depth 0) and whose
eta channel (index 7) holds 5. -/
def cFrame8 : FGoutFrame 1 1 :=
  ⟨0, [0], [0], [cG 0, cG 2, cG 3, cG 4, cG 5, cG 6, cG 7, cG 5], rfl, rfl⟩

/-- A 2-channel frame (invalid per the spec's schema rules). -/
def cFrame2 : FGoutFrame 1 1 := ⟨0, [0], [0], [cG 1, cG 2], rfl, rfl⟩

/-- A single-channel wet 1x3 frame with the ascending y vector [0, 1, 2]
(shape-consistent: y has length ny = 3, x has length nx = 1). -/
def cFrameY : FGoutFrame 1 3 := ⟨0, [0], [0, 1, 2], [cGY 1], rfl, rfl⟩

/-- A constant 1x1 masked grid. -/
def cMG (v : ℚ) (b : Bool) : MaskedGrid 1 1 := ⟨cG v, fun _ _ => b⟩

/-- A constant 1x3 masked grid. -/
def cMGY (v : ℚ) (b : Bool) : MaskedGrid 1 3 := ⟨cGY v, fun _ _ => b⟩

/-- A 1x1 fgmax record: depth max 2 (valid), topography 3, no optional
blocks. -/
def cMaxGrid : FGMaxGrid 1 1 :=
  ⟨[0], [0], cMG 0 false, cMG 2 false, cMG 0 false, cG 3, none, none, rfl, rfl⟩

/-- A 1x3 fgmax record with the ascending y vector [0, 1, 2]
(shape-consistent: y has length n = 3, x has length m = 1). -/
def cMaxGridY : FGMaxGrid 1 3 :=
  ⟨[0], [0, 1, 2], cMGY 0 false, cMGY 2 false, cMGY 0 false, cGY 3, none, none,
    rfl, rfl⟩

/-- Names of the variables of an fgout result, `none` on error. -/
def fgoutResultNames {m n : Nat} (r : Except PyError (FGoutDataset m n)) :
    Option (List String) :=
  match r with
  | .ok ds => some (ds.data_vars.map Prod.fst)
  | .error _ => none

/-- The y coordinate vector of an fgout result, `none` on error. -/
def fgoutResultY {m n : Nat} (r : Except PyError (FGoutDataset m n)) : Option (List ℚ) :=
  match r with
  | .ok ds => some ds.y
  | .error _ => none

/-- The description attribute of an fgout result, `none` on error. -/
def fgoutResultDescription {m n : Nat} (r : Except PyError (FGoutDataset m n)) :
    Option String :=
  match r with
  | .ok ds => some ds.description
  | .error _ => none

/-- The single cell value of a named variable of a 1x1 fgout result. -/
def fgoutResultValue (r : Except PyError (FGoutDataset 1 1)) (name : String) : Option ℚ :=
  match r with
  | .ok ds => (ds.data_vars.lookup name).map (fun v => v.data 0 0)
  | .error _ => none

/-- Fallback dataset for extraction. -/
def cDSdefault : FGoutDataset 1 1 := ⟨[], [], [], [], "", ""⟩

/-- The dataset produced for `cFrame4` with fill value 9 and no drops. -/
def cDS4 : FGoutDataset 1 1 :=
  (fgoutOpenDataset stdFgoutName 2 (.ok cFrame4) 9 []).toOption.getD cDSdefault

/-- Fallback dataset of the 1x3 shape for extraction. -/
def cDSdefaultY : FGoutDataset 3 1 := ⟨[], [], [], [], "", ""⟩

/-- The dataset produced for `cFrameY`. -/
def cDSY : FGoutDataset 3 1 :=
  (fgoutOpenDataset stdFgoutName 2 (.ok cFrameY) 9 []).toOption.getD cDSdefaultY

/-- The dataset produced for `cFrame4` when dropping ["h"]. -/
def cDS4drop : FGoutDataset 1 1 :=
  (fgoutOpenDataset stdFgoutName 2 (.ok cFrame4) 9 ["h"]).toOption.getD cDSdefault

/-- Fallback variable mapping for extraction. -/
def cVMdefault : VarMapping 1 1 := ⟨[], cG 0, "", 0, ""⟩

/-- Fallback fgmax dataset for extraction. -/
def cMaxDSdefault : FGMaxDataset 1 1 := ⟨[], [], [], ""⟩

/-- The fgmax dataset produced for `cMaxGrid` with fill value 9. -/
def cMaxDS : FGMaxDataset 1 1 :=
  (fgmaxOpenDataset stdFgmaxName 2 (.ok cMaxGrid) 9 []).toOption.getD cMaxDSdefault

/-- The fgmax dataset produced for `cMaxGrid` when dropping ["h_max"]. -/
def cMaxDSdrop : FGMaxDataset 1 1 :=
  (fgmaxOpenDataset stdFgmaxName 2 (.ok cMaxGrid) 9 ["h_max"]).toOption.getD cMaxDSdefault

/-- Fallback fgmax dataset of the 1x3 shape for extraction. -/
def cMaxDSdefaultY : FGMaxDataset 3 1 := ⟨[], [], [], ""⟩

/-- The fgmax dataset produced for `cMaxGridY` with fill value 9. -/
def cMaxDSY : FGMaxDataset 3 1 :=
  (fgmaxOpenDataset stdFgmaxName 2 (.ok cMaxGridY) 9 []).toOption.getD cMaxDSdefaultY

/-- The second data variable of `cDS4` (channel 1, `hu`). -/
def cDS4entry : String × FGVar 1 1 := (cDS4.data_vars.getD 1 ("", ⟨[], cG 0, "", 0⟩))

/-- The `h_max` mapping of `cMaxDS`. -/
def cMaxH : VarMapping 1 1 := (cMaxDS.data_vars.lookup ("h_max")).getD cVMdefault

/-- The `eta_max` mapping of `cMaxDS`. -/
def cMaxE : VarMapping 1 1 := (cMaxDS.data_vars.lookup ("eta_max")).getD cVMdefault

/-- Sanity: the structured filename used in the parsing theorem is the
literal `fgout0007.b0123` of the spec example. -/
lemma concat_is_example :
    (("fgout".data) ++ pad4 7) ++ ('.' :: 'b' :: pad4 123) = ("fgout0007.b0123".data) := by
  decide

/-! Claim theorems. -/

/-- C1: the orientation-and-masking transform (`_prepare_var`, and the
per-channel transform of `FGOutBackend.open_dataset`, here `orientAndMask`),
applied to any 2-D field, mask and fill value, returns the field with every
masked position overwritten by the fill value, then transposed, then
vertically flipped; no unmasked position changes value.  Pointwise: output
position `(i, j)` holds the fill value exactly when the mask is set at the
source position `(j, rev i)`, and the untouched source value otherwise. -/
theorem prepare_var_orientation {m n : Nat} (data : Grid m n) (mask : BoolMask m n)
    (dims : List String) (units long_name : String) (nodata : ℚ) (i : Fin n) (j : Fin m) :
    (prepareVar data mask dims units nodata long_name).data = orientAndMask data mask nodata ∧
    orientAndMask data mask nodata = flipud (transposeG (maskFill data mask nodata)) ∧
    (prepareVar data mask dims units nodata long_name).data i j =
      (if mask j i.rev then nodata else data j i.rev) :=
  ⟨rfl, rfl, rfl⟩

/-- C5: `FGOutBackend.open_dataset` parses `fgoutNNNN.cMMMM` so that the grid
id is the integer in the last 4 characters of the base name, the frame id the
integer in the last 4 digits of the extension suffix, and the character after
the dot selects the encoding: `q` gives text ("ascii"), `b` gives 32-bit
binary ("binary32"), and any other leading character raises the format
`ValueError` (the spec's `FormatError`). -/
theorem fgout_filename_parsing (g f : Nat) (c : Char) (hg : g < 10000) (hf : f < 10000) :
    (c = 'q' → parseFGoutFilename ((("fgout".data) ++ pad4 g) ++ ('.' :: c :: pad4 f)) =
        .ok (c, g, f, "ascii")) ∧
    (c = 'b' → parseFGoutFilename ((("fgout".data) ++ pad4 g) ++ ('.' :: c :: pad4 f)) =
        .ok (c, g, f, "binary32")) ∧
    (c ≠ 'q' → c ≠ 'b' →
      parseFGoutFilename ((("fgout".data) ++ pad4 g) ++ ('.' :: c :: pad4 f)) =
        .error (.valueError ("Invalid FGout output format. Must be ascii or binary."))) := by
  refine ⟨?_, ?_, ?_⟩
  · intro hcq
    subst hcq
    rw [parseFGoutFilename_concat hg hf (by decide), if_pos rfl]
  · intro hcb
    subst hcb
    rw [parseFGoutFilename_concat hg hf (by decide), if_neg (by decide), if_pos rfl]
  · intro hq hb
    by_cases hdot : c = '.'
    · subst hdot
      exact parseFGoutFilename_concat_dot hg hf
    · rw [parseFGoutFilename_concat hg hf hdot, if_neg hq, if_neg hb]

/-- Witness for C5 at the spec's three examples (grid id 7, frame id 123). -/
theorem fgout_filename_parsing_witness :
    parseFGoutFilename ((("fgout".data) ++ pad4 7) ++ ('.' :: 'b' :: pad4 123)) =
      .ok ('b', 7, 123, "binary32") ∧
    parseFGoutFilename ((("fgout".data) ++ pad4 7) ++ ('.' :: 'q' :: pad4 123)) =
      .ok ('q', 7, 123, "ascii") ∧
    parseFGoutFilename ((("fgout".data) ++ pad4 7) ++ ('.' :: 'x' :: pad4 123)) =
      .error (.valueError ("Invalid FGout output format. Must be ascii or binary.")) :=
  ⟨(fgout_filename_parsing 7 123 'b' (by decide) (by decide)).2.1 rfl,
   (fgout_filename_parsing 7 123 'q' (by decide) (by decide)).1 rfl,
   (fgout_filename_parsing 7 123 'x' (by decide) (by decide)).2.2 (by decide) (by decide)⟩

/-- C7: both backends fail fast with the descriptive point-style error
whenever the loaded grid's point style is not 2, whatever the frame or
accumulation reader would have produced (so nothing is decoded), and no
dataset is returned. -/
theorem point_style_guard (ps : ℤ) (hps : ps ≠ 2) :
    (∀ (nx ny : Nat) (rf : Except PyError (FGoutFrame nx ny)) (nodata : ℚ)
        (drop : List String),
      fgoutOpenDataset stdFgoutName ps rf nodata drop =
        .error (.valueError ("FGOutBackend only works with fg.point_style=2"))) ∧
    (∀ (m n : Nat) (ro : Except PyError (FGMaxGrid m n)) (nodata : ℚ)
        (drop : List String),
      fgmaxOpenDataset stdFgmaxName ps ro nodata drop =
        .error (.valueError ("FGMaxBackend only works with fg.point_style=2"))) := by
  constructor
  · intro nx ny rf nodata drop
    unfold fgoutOpenDataset
    rw [show parseFGoutFilename stdFgoutName = .ok ('q', 1, 1, "ascii") from rfl]
    dsimp only
    rw [if_pos hps]
  · intro m n ro nodata drop
    unfold fgmaxOpenDataset
    rw [show pyInt (lastN 4 ((pySplit '.' stdFgmaxName).headD [])) = .ok 1 from rfl]
    dsimp only
    rw [if_pos hps]

/-- Witness for C7 at point style 3 with concrete readers. -/
theorem point_style_guard_witness :
    fgoutOpenDataset stdFgoutName 3 (.ok cFrame4) 9 [] =
      .error (.valueError ("FGOutBackend only works with fg.point_style=2")) ∧
    fgmaxOpenDataset stdFgmaxName 3 (.ok cMaxGrid) 9 [] =
      .error (.valueError ("FGMaxBackend only works with fg.point_style=2")) :=
  ⟨(point_style_guard 3 (by decide)).1 1 1 (.ok cFrame4) 9 [],
   (point_style_guard 3 (by decide)).2 1 1 (.ok cMaxGrid) 9 []⟩

/-- C10: the dry mask is computed once from the original depth channel
before any channel is overwritten, so although masking writes the fill value
into each channel's buffer in place (depth included), every channel ends up
masked at exactly the cells of the original mask: the stateful
`open_dataset` coincides with its mutation-free rendering in which each
channel is the original one masked by the original mask. -/
theorem fgout_mask_computed_once {nx ny : Nat} (filename : List Char) (point_style : ℤ)
    (readFrame : Except PyError (FGoutFrame nx ny)) (nodata : ℚ) (drop : List String) :
    fgoutOpenDataset filename point_style readFrame nodata drop =
      fgoutOpenDatasetPure filename point_style readFrame nodata drop := by
  unfold fgoutOpenDataset fgoutOpenDatasetPure
  cases parseFGoutFilename filename with
  | error e => rfl
  | ok pr =>
    dsimp only
    by_cases hps : point_style ≠ 2
    · rw [if_pos hps, if_pos hps]
    · rw [if_neg hps, if_neg hps]
      cases readFrame with
      | error e => rfl
      | ok frame =>
        dsimp only
        cases pyIndex frame.q 0 with
        | error e => rfl
        | ok q0 =>
          dsimp only
          have hbridge := fgoutLoop_eq_pure (maskOf q0) nodata (qelemsOf frame.q.length)
            drop frame.q.length frame.q 0 (by omega)
          rw [List.drop_zero] at hbridge
          rw [hbridge]

/-- C2 counterexample: in an 8-channel frame whose single cell is dry
(depth 0 < 0.001), the depth variable `h` is overwritten with the fill value
9, but the elevation variable `eta` (channel 7) keeps its value 5 — it is
not the fill sentinel, refuting "every depth-derived output channel ... with
elevation masking following the depth mask too". -/
theorem fgout_dry_masking_counterexample :
    fgoutResultValue (fgoutOpenDataset stdFgoutName 2 (.ok cFrame8) 9 []) ("h") = some 9 ∧
    fgoutResultValue (fgoutOpenDataset stdFgoutName 2 (.ok cFrame8) 9 []) ("eta") = some 5 ∧
    (5 : ℚ) ≠ 9 ∧ cG 0 0 0 < dryTolerance := by
  refine ⟨?_, ?_, by decide, by decide⟩ <;> decide

/-- C2 (amended): in `FGOutBackend.open_dataset`, in every cell where the
original depth channel is below the dry threshold, every output channel with
index < 7 equals the fill sentinel — in the 4-channel schema that is every
channel including elevation, but in the 8-channel schema the elevation
channel (index 7) is NOT masked and keeps its value — and no cell at or
above the threshold is overwritten in any channel. -/
theorem fgout_dry_masking {nx ny : Nat} (frame : FGoutFrame nx ny) (nodata : ℚ)
    (ds : FGoutDataset ny nx) (k : Nat) (q0 Qk : Grid nx ny)
    (entry : String × FGVar ny nx)
    (hopen : fgoutOpenDataset stdFgoutName 2 (.ok frame) nodata [] = .ok ds)
    (h0 : frame.q[0]? = some q0)
    (hk : frame.q[k]? = some Qk)
    (he : ds.data_vars[k]? = some entry)
    (r : Fin nx) (c : Fin ny) :
    entry.2.data c.rev r =
      (if q0 r c < dryTolerance ∧ k < 7 then nodata else Qk r c) := by
  obtain ⟨-, frame', q0', hrf, hq0', hpure, -, -, -, -, -⟩ := fgoutOpenDataset_ok hopen
  cases hrf
  rw [h0] at hq0'
  cases hq0'
  have hvars : ds.data_vars = fgoutVarsOf (maskOf q0) nodata (qelemsOf frame.q.length)
      frame.q 0 := by
    by_cases hlen : 0 + frame.q.length ≤ (qelemsOf frame.q.length).length
    · rw [channelsPure_ok _ _ _ _ _ hlen] at hpure
      exact (Except.ok.inj hpure).symm
    · have hqnil : frame.q ≠ [] := by
        intro hq
        rw [hq] at hk
        exact absurd hk (by simp)
      rw [channelsPure_err _ _ _ _ _ _ hqnil (by omega)] at hpure
      exact absurd hpure (by simp)
  rw [hvars, fgoutVarsOf_getElem?, hk] at he
  dsimp only [Option.map_some'] at he
  cases he
  show fgoutChannel Qk (0 + k) (maskOf q0) nodata c.rev r = _
  rw [Nat.zero_add]
  unfold fgoutChannel flipud transposeG
  rw [Fin.rev_rev]
  by_cases hk7 : k < 7
  · rw [if_pos hk7]
    unfold maskFill maskOf
    by_cases hdry : q0 r c < dryTolerance
    · rw [if_pos (by rw [decide_eq_true_iff]; exact hdry), if_pos ⟨hdry, hk7⟩]
    · rw [if_neg (by rw [decide_eq_true_iff]; exact hdry),
        if_neg (fun hand => hdry hand.1)]
  · rw [if_neg hk7, if_neg (fun hand => hk7 hand.2)]

/-- Witness for C2 (amended): channel 1 (`hu`, value 2) of the dry 4-channel
frame is overwritten with the fill value. -/
theorem fgout_dry_masking_witness :
    cDS4entry.2.data (Fin.rev 0) 0 =
      (if cG 0 0 0 < dryTolerance ∧ 1 < 7 then (9 : ℚ) else cG 2 0 0) :=
  fgout_dry_masking cFrame4 9 cDS4 1 (cG 0) (cG 2) cDS4entry rfl rfl rfl rfl 0 0

/-- C3 counterexample: a frame whose solver y vector is the ascending
[0, 1, 2] produces the dataset y vector [2, 1, 0], and its first adjacent
pair violates `y[i] < y[i+1]`. -/
theorem y_ascending_counterexample :
    fgoutResultY (fgoutOpenDataset stdFgoutName 2 (.ok cFrameY) 9 []) = some [2, 1, 0] ∧
    ¬ ((2 : ℚ) < 1) := by
  exact ⟨by decide, by decide⟩

/-- C3 (amended): after the internal reversal (applied exactly once) of the
solver's strictly ascending y vector, the y coordinate vector placed in the
dataset by both backends is strictly DESCENDING: `y[i] > y[i+1]` for all
i. -/
theorem y_descending :
    (∀ (nx ny : Nat) (fname : List Char) (ps : ℤ) (frame : FGoutFrame nx ny)
        (nodata : ℚ) (drop : List String) (ds : FGoutDataset ny nx),
      List.Chain' (· < ·) frame.y →
      fgoutOpenDataset fname ps (.ok frame) nodata drop = .ok ds →
      List.Chain' (· > ·) ds.y) ∧
    (∀ (m n : Nat) (fname : List Char) (ps : ℤ) (fg : FGMaxGrid m n)
        (nodata : ℚ) (drop : List String) (ds : FGMaxDataset n m),
      List.Chain' (· < ·) fg.y →
      fgmaxOpenDataset fname ps (.ok fg) nodata drop = .ok ds →
      List.Chain' (· > ·) ds.y) := by
  constructor
  · intro nx ny fname ps frame nodata drop ds hasc hopen
    obtain ⟨-, frame', q0, hrf, -, -, -, hy, -, -, -⟩ := fgoutOpenDataset_ok hopen
    cases hrf
    rw [hy, List.chain'_reverse]
    exact hasc
  · intro m n fname ps fg nodata drop ds hasc hopen
    obtain ⟨-, fg', hro, -, -, hy, -⟩ := fgmaxOpenDataset_ok hopen
    cases hro
    rw [hy, List.chain'_reverse]
    exact hasc

/-- Witness for C3 (amended) on the concrete ascending vector [0, 1, 2]
carried by shape-consistent 1x3 fixtures. -/
theorem y_descending_witness :
    List.Chain' (· > ·) cDSY.y ∧ List.Chain' (· > ·) cMaxDSY.y :=
  ⟨(y_descending).1 1 3 stdFgoutName 2 cFrameY 9 [] cDSY
      (by simp [cFrameY, List.chain'_cons]) rfl,
   (y_descending).2 1 3 stdFgmaxName 2 cMaxGridY 9 [] cMaxDSY
      (by simp [cMaxGridY, List.chain'_cons]) rfl⟩

/-- Intermediate: the variable names produced on a successful run with no
drops, for any channel count fitting the selected name list. -/
lemma fgout_names_of_le {nx ny : Nat} (frame : FGoutFrame nx ny) (nodata : ℚ)
    (h1 : 1 ≤ frame.q.length)
    (h2 : frame.q.length ≤ (qelemsOf frame.q.length).length) :
    fgoutResultNames (fgoutOpenDataset stdFgoutName 2 (.ok frame) nodata []) =
      some ((List.range' 0 frame.q.length).map
        (fun t => (qelemsOf frame.q.length).getD t (""))) := by
  rw [fgoutOpenDataset_std]
  have h0 : frame.q[0]? = some frame.q[0] := List.getElem?_eq_getElem (by omega)
  have hpy : pyIndex frame.q 0 = .ok frame.q[0] := by
    unfold pyIndex
    rw [h0]
  rw [hpy]
  dsimp only
  have hbridge := fgoutLoop_eq_pure (maskOf frame.q[0]) nodata (qelemsOf frame.q.length)
    [] frame.q.length frame.q 0 (by omega)
  rw [List.drop_zero] at hbridge
  rw [hbridge, channelsPure_ok _ _ _ _ _ (by omega)]
  show some ((fgoutVarsOf (maskOf frame.q[0]) nodata (qelemsOf frame.q.length)
    frame.q 0).map Prod.fst) = _
  rw [fgoutVarsOf_map_fst]

/-- C4 counterexample: a 2-channel frame raises nothing at all — the call
succeeds and produces the name set {h, hu} — refuting "any other channel
count raises SchemaError". -/
theorem fgout_schema_counterexample :
    fgoutResultNames (fgoutOpenDataset stdFgoutName 2 (.ok cFrame2) 9 []) =
      some ["h", "hu"] := by
  decide

/-- C4 (amended): exactly 4 channels produce exactly the 4-variable name
set and exactly 8 produce exactly the 8-variable name set, but no
`SchemaError` exists for other counts: 1-3 channels succeed with a prefix of
the geoclaw names, while 5-7 or more than 8 channels fail with an
`IndexError` (and 0 channels fail with `IndexError` when the mask reads the
missing depth channel). -/
theorem fgout_schema_dispatch {nx ny : Nat} (frame : FGoutFrame nx ny) (nodata : ℚ) :
    (frame.q.length = 4 →
      fgoutResultNames (fgoutOpenDataset stdFgoutName 2 (.ok frame) nodata []) =
        some ["h", "hu", "hv", "eta"]) ∧
    (frame.q.length = 8 →
      fgoutResultNames (fgoutOpenDataset stdFgoutName 2 (.ok frame) nodata []) =
        some ["h", "hu", "hv", "hm", "pb", "hchi", "delta_a", "eta"]) ∧
    (1 ≤ frame.q.length → frame.q.length ≤ 3 →
      fgoutResultNames (fgoutOpenDataset stdFgoutName 2 (.ok frame) nodata []) =
        some (_qelements_geoclaw.take frame.q.length)) ∧
    (5 ≤ frame.q.length → frame.q.length ≠ 8 →
      fgoutOpenDataset stdFgoutName 2 (.ok frame) nodata [] = .error .indexError) ∧
    (frame.q.length = 0 →
      fgoutOpenDataset stdFgoutName 2 (.ok frame) nodata [] = .error .indexError) := by
  refine ⟨?_, ?_, ?_, ?_, ?_⟩
  · intro h4
    rw [fgout_names_of_le frame nodata (by omega) (by rw [h4]; decide)]
    rw [h4]
    decide
  · intro h8
    rw [fgout_names_of_le frame nodata (by omega) (by rw [h8]; decide)]
    rw [h8]
    decide
  · intro hge hle
    have hq : qelemsOf frame.q.length = _qelements_geoclaw := by
      unfold qelemsOf
      rw [if_neg]
      simp only [beq_iff_eq]
      omega
    rw [fgout_names_of_le frame nodata hge (by rw [hq]; show _ ≤ 4; omega)]
    rw [hq]
    have hcase : frame.q.length = 1 ∨ frame.q.length = 2 ∨ frame.q.length = 3 := by omega
    rcases hcase with h | h | h <;> rw [h] <;> decide
  · intro hge hne
    rw [fgoutOpenDataset_std]
    have h0 : frame.q[0]? = some frame.q[0] := List.getElem?_eq_getElem (by omega)
    have hpy : pyIndex frame.q 0 = .ok frame.q[0] := by
      unfold pyIndex
      rw [h0]
    rw [hpy]
    dsimp only
    have hq : qelemsOf frame.q.length = _qelements_geoclaw := by
      unfold qelemsOf
      rw [if_neg]
      simp only [beq_iff_eq]
      omega
    have hbridge := fgoutLoop_eq_pure (maskOf frame.q[0]) nodata (qelemsOf frame.q.length)
      [] frame.q.length frame.q 0 (by omega)
    rw [List.drop_zero] at hbridge
    rw [hbridge]
    have hlen4 : (_qelements_geoclaw).length = 4 := rfl
    rw [channelsPure_err _ _ _ _ _ _
      (by intro hnil; rw [hnil] at hge; simp at hge)
      (by rw [hq, hlen4]; omega)]
  · intro h0
    have hnil : frame.q = [] := List.length_eq_zero.mp h0
    rw [fgoutOpenDataset_std, hnil]
    rfl

/-- Witness for C4 (amended): the 4-channel frame. -/
theorem fgout_schema_dispatch_witness :
    fgoutResultNames (fgoutOpenDataset stdFgoutName 2 (.ok cFrame4) 9 []) =
      some ["h", "hu", "hv", "eta"] :=
  (fgout_schema_dispatch cFrame4 9).1 rfl

/-- C9 counterexample: a 4-variable frame and an 8-variable frame produce the
SAME description string "Clawpack model output" — the two schemas are not
distinguished, refuting "two different human-readable description
strings". -/
theorem fgout_description_counterexample :
    fgoutResultDescription (fgoutOpenDataset stdFgoutName 2 (.ok cFrame4) 9 []) =
      some ("Clawpack model output") ∧
    fgoutResultDescription (fgoutOpenDataset stdFgoutName 2 (.ok cFrame8) 9 []) =
      some ("Clawpack model output") := by
  exact ⟨by decide, by decide⟩

/-- C9 (amended): the dataset-level description attribute produced by
`FGOutBackend.open_dataset` is the constant "Clawpack model output"
regardless of schema. -/
theorem fgout_description_constant {nx ny : Nat} (fname : List Char) (ps : ℤ)
    (rf : Except PyError (FGoutFrame nx ny)) (nodata : ℚ) (drop : List String)
    (ds : FGoutDataset ny nx)
    (hopen : fgoutOpenDataset fname ps rf nodata drop = .ok ds) :
    ds.description = ("Clawpack model output") := by
  obtain ⟨-, frame, q0, -, -, -, -, -, -, -, hdesc⟩ := fgoutOpenDataset_ok hopen
  exact hdesc

/-- Witness for C9 (amended). -/
theorem fgout_description_constant_witness :
    cDS4.description = ("Clawpack model output") :=
  fgout_description_constant stdFgoutName 2 (.ok cFrame4) 9 [] cDS4 rfl

/-- C6: in the dataset produced by `FGMaxBackend.open_dataset`, `eta_max`
equals `h_max` plus topography pointwise at every cell where the depth field
is valid (unmasked), and equals the fill sentinel at every cell where the
depth field is masked. -/
theorem fgmax_eta_derivation {m n : Nat} (fg : FGMaxGrid m n) (nodata : ℚ)
    (ds : FGMaxDataset n m) (vH vE : VarMapping n m)
    (hopen : fgmaxOpenDataset stdFgmaxName 2 (.ok fg) nodata [] = .ok ds)
    (hH : ds.data_vars.lookup ("h_max") = some vH)
    (hE : ds.data_vars.lookup ("eta_max") = some vE)
    (i : Fin n) (j : Fin m) :
    (fg.h.mask j i.rev = false → vE.data i j = vH.data i j + fg.B j i.rev) ∧
    (fg.h.mask j i.rev = true → vE.data i j = nodata) := by
  rw [fgmaxOpenDataset_std] at hopen
  cases hopen
  have hHv : (applyDrops (fgmaxVars fg nodata) []).lookup ("h_max") =
      some (prepareVar fg.h.data fg.h.mask ["y", "x"] ("meters") nodata
        ("Maximum water depth")) := rfl
  have hEv : (applyDrops (fgmaxVars fg nodata) []).lookup ("eta_max") =
      some (prepareVar (fun a b => maskFill fg.h.data fg.h.mask nodata a b + fg.B a b)
        fg.h.mask ["y", "x"] ("meters") nodata ("Maximum water surface elevation")) := rfl
  rw [hHv] at hH
  rw [hEv] at hE
  cases hH
  cases hE
  constructor
  · intro hmask
    simp [prepareVar, orientAndMask, flipud, transposeG, maskFill, hmask]
  · intro hmask
    simp [prepareVar, orientAndMask, flipud, transposeG, maskFill, hmask]

/-- Witness for C6 on the concrete fgmax record (depth max 2, topography 3,
valid cell). -/
theorem fgmax_eta_derivation_witness :
    (cMaxGrid.h.mask 0 (Fin.rev 0) = false →
      cMaxE.data 0 0 = cMaxH.data 0 0 + cMaxGrid.B 0 (Fin.rev 0)) ∧
    (cMaxGrid.h.mask 0 (Fin.rev 0) = true → cMaxE.data 0 0 = 9) :=
  fgmax_eta_derivation cMaxGrid 9 cMaxDS cMaxH cMaxE rfl rfl rfl 0 0

/-- C8: for both backends, every variable name in the caller-supplied
exclusion list is absent from the final dataset, and the result depends on
the exclusion list only through name membership — so exclusion is
order-independent and listing a name once or twice yields an identical
dataset, with no error in either case. -/
theorem drop_variables_exclusion :
    (∀ (nx ny : Nat) (fname : List Char) (ps : ℤ) (rf : Except PyError (FGoutFrame nx ny))
        (nodata : ℚ) (d : List String) (ds : FGoutDataset ny nx) (name : String),
      fgoutOpenDataset fname ps rf nodata d = .ok ds → name ∈ d →
      ds.data_vars.lookup name = none) ∧
    (∀ (nx ny : Nat) (fname : List Char) (ps : ℤ) (rf : Except PyError (FGoutFrame nx ny))
        (nodata : ℚ) (d₁ d₂ : List String), (∀ s, s ∈ d₁ ↔ s ∈ d₂) →
      fgoutOpenDataset fname ps rf nodata d₁ = fgoutOpenDataset fname ps rf nodata d₂) ∧
    (∀ (m n : Nat) (fname : List Char) (ps : ℤ) (ro : Except PyError (FGMaxGrid m n))
        (nodata : ℚ) (d : List String) (ds : FGMaxDataset n m) (name : String),
      fgmaxOpenDataset fname ps ro nodata d = .ok ds → name ∈ d →
      ds.data_vars.lookup name = none) ∧
    (∀ (m n : Nat) (fname : List Char) (ps : ℤ) (ro : Except PyError (FGMaxGrid m n))
        (nodata : ℚ) (d₁ d₂ : List String), (∀ s, s ∈ d₁ ↔ s ∈ d₂) →
      fgmaxOpenDataset fname ps ro nodata d₁ = fgmaxOpenDataset fname ps ro nodata d₂) := by
  refine ⟨?_, ?_, ?_, ?_⟩
  · intro nx ny fname ps rf nodata d ds name hopen hmem
    obtain ⟨-, frame, q0, -, -, hpure, -, -, -, -, -⟩ := fgoutOpenDataset_ok hopen
    exact lookup_eq_none_of_forall _ name
      (fun p hp hpn => (channelsPure_mem _ _ _ _ _ _ _ hpure p hp) (hpn ▸ hmem))
  · intro nx ny fname ps rf nodata d₁ d₂ hd
    unfold fgoutOpenDataset
    cases parseFGoutFilename fname with
    | error e => rfl
    | ok pr =>
      dsimp only
      by_cases hps : ps ≠ 2
      · rw [if_pos hps, if_pos hps]
      · rw [if_neg hps, if_neg hps]
        cases rf with
        | error e => rfl
        | ok frame =>
          dsimp only
          cases pyIndex frame.q 0 with
          | error e => rfl
          | ok q0 =>
            dsimp only
            have hb1 := fgoutLoop_eq_pure (maskOf q0) nodata (qelemsOf frame.q.length)
              d₁ frame.q.length frame.q 0 (by omega)
            have hb2 := fgoutLoop_eq_pure (maskOf q0) nodata (qelemsOf frame.q.length)
              d₂ frame.q.length frame.q 0 (by omega)
            rw [List.drop_zero] at hb1 hb2
            rw [hb1, hb2, channelsPure_congr_drop _ _ _ _ _ hd]
  · intro m n fname ps ro nodata d ds name hopen hmem
    obtain ⟨-, fg, -, hvars, -, -, -⟩ := fgmaxOpenDataset_ok hopen
    rw [hvars, applyDrops_eq_filter]
    apply lookup_eq_none_of_forall
    intro p hp hpn
    have := (List.mem_filter.1 hp).2
    rw [decide_eq_true_iff] at this
    exact this (hpn ▸ hmem)
  · intro m n fname ps ro nodata d₁ d₂ hd
    unfold fgmaxOpenDataset
    cases pyInt (lastN 4 ((pySplit '.' fname).headD [])) with
    | error e => rfl
    | ok fgno =>
      dsimp only
      by_cases hps : ps ≠ 2
      · rw [if_pos hps, if_pos hps]
      · rw [if_neg hps, if_neg hps]
        cases ro with
        | error e => rfl
        | ok fg =>
          dsimp only
          rw [applyDrops_eq_filter, applyDrops_eq_filter]
          have hfeq : (fgmaxVars fg nodata).filter (fun p => decide (p.1 ∉ d₁)) =
              (fgmaxVars fg nodata).filter (fun p => decide (p.1 ∉ d₂)) := by
            congr 1
            funext p
            by_cases h1 : p.1 ∈ d₁
            · simp [h1, (hd p.1).1 h1]
            · have h2 : p.1 ∉ d₂ := fun hin => h1 ((hd p.1).2 hin)
              simp [h1, h2]
          rw [hfeq]

/-- Witness for C8: duplicate exclusion lists are no-ops and excluded names
are absent, on the concrete fixtures. -/
theorem drop_variables_exclusion_witness :
    fgoutOpenDataset stdFgoutName 2 (.ok cFrame4) 9 ["h", "h"] =
      fgoutOpenDataset stdFgoutName 2 (.ok cFrame4) 9 ["h"] ∧
    cDS4drop.data_vars.lookup ("h") = none ∧
    fgmaxOpenDataset stdFgmaxName 2 (.ok cMaxGrid) 9 ["h_max", "h_max"] =
      fgmaxOpenDataset stdFgmaxName 2 (.ok cMaxGrid) 9 ["h_max"] ∧
    cMaxDSdrop.data_vars.lookup ("h_max") = none :=
  ⟨(drop_variables_exclusion).2.1 1 1 stdFgoutName 2 (.ok cFrame4) 9 ["h", "h"] ["h"]
      (by intro s; simp),
   (drop_variables_exclusion).1 1 1 stdFgoutName 2 (.ok cFrame4) 9 ["h"] cDS4drop ("h")
      rfl (by simp),
   (drop_variables_exclusion).2.2.2 1 1 stdFgmaxName 2 (.ok cMaxGrid) 9
      ["h_max", "h_max"] ["h_max"] (by intro s; simp),
   (drop_variables_exclusion).2.2.1 1 1 stdFgmaxName 2 (.ok cMaxGrid) 9 ["h_max"]
      cMaxDSdrop ("h_max") rfl (by simp)⟩

end XarrayBackends
